import Mathlib

/-!
Shallow embedding of `src/ray5_connector.py` (LongerRay5Connector).

The program is a session manager for a laser-cutter device exposing a small
HTTP API.  We embed, faithfully to the Python source:

* `Ray5Client.get_files` / `Ray5Client.upload_file` (lines 45-79),
* the `connect` background task, `disconnect`, `on_connected` (228-286),
* `refresh_list` / `populate_tree` / `fade_item` (326-368),
* the keepalive loop body `check` (288-305),
* the `perform_upload` batch task (376-396).

Network / filesystem effects are modelled by explicit environment values
(an `HttpResp` for a listing request, an `UploadEnv` for one upload), and
a Python exception that escapes a function is an `Except.error`, while a
caught exception that the code converts to a message string stays `Except.ok`.
GUI widget state is reduced to the fields the claims speak about: the
connected flag, the current MAC, the saved config pair, the status label,
and the treeview rows (name, size, and the fading "new file" marker, which
in the source is a tag plus a scheduled `fade_item` countdown chain keyed by
the row's item id).
-/

namespace Ray5

/-- Python's substring test `needle in hay`, on explicit character lists:
true iff `needle` is a contiguous run of `hay` (the empty needle matches). -/
def listContains (needle : List Char) : List Char → Bool
  | [] => needle.isEmpty
  | c :: rest => needle.isPrefixOf (c :: rest) || listContains needle rest

/-- Python's `needle in hay` on strings. -/
def strContains (needle hay : String) : Bool :=
  listContains needle.data hay.data

/-- ASCII lowercasing of one character (the device responses the code
lowercases are ASCII). -/
def lowerChar (c : Char) : Char :=
  if 'A' ≤ c && c ≤ 'Z' then Char.ofNat (c.toNat + 32) else c

/-- Python's `s.lower()` on the ASCII strings involved here. -/
def pyLower (s : String) : String :=
  String.mk (s.data.map lowerChar)

/-- Character class `[0-9A-F:]` of the regex `STA \(([0-9A-F:]+)\)`. -/
def isMacChar (c : Char) : Bool :=
  c.isDigit || ('A' ≤ c && c ≤ 'F') || c = ':'

/-- Try to match the regex `STA \(([0-9A-F:]+)\)` at the head of `l`,
returning the captured group.  Because `)` is not in the class, the greedy
`+` needs no backtracking: the match succeeds iff the maximal class run
after `STA (` is nonempty and is followed by `)`. -/
def staAt (l : List Char) : Option String :=
  match l with
  | 'S' :: 'T' :: 'A' :: ' ' :: '(' :: rest =>
    let run := rest.takeWhile isMacChar
    if run.isEmpty then none
    else
      match rest.dropWhile isMacChar with
      | ')' :: _ => some (String.mk run)
      | _ => none
  | _ => none

/-- Leftmost-match search, as `re.search` does: try each start position. -/
def staSearchAux : List Char → Option String
  | [] => none
  | c :: rest =>
    match staAt (c :: rest) with
    | some m => some m
    | none => staSearchAux rest

/-- Model of `re.search(r"STA \(([0-9A-F:]+)\)", info)` followed by `.group(1)`. -/
def staSearch (info : String) : Option String :=
  staSearchAux info.data

/-- One row of the device listing: `{"name": ..., "size": ...}`. -/
structure RemoteFile where
  name : String
  size : Nat
  deriving DecidableEq, Repr

/-- Outcome of the HTTP GET behind `Ray5Client.get_files`, as the code can
observe it: a 200 whose JSON body has a well-formed `files` array, a 200
whose JSON object has no `files` key, a 200 whose body fails `json.loads`,
a non-200 status, or a raised `requests` exception. -/
inductive HttpResp where
  | ok (files : List RemoteFile)
  | okNoFiles
  | okMalformed (msg : String)
  | httpError (code : Nat)
  | exc (msg : String)
  deriving DecidableEq, Repr

/-- Embedding of `Ray5Client.get_files` (lines 45-56).  First component: the value
returned to the caller.  Second component: whether `logging.error` ran
(the only trace a failure leaves; the caller never sees it).  On a 200 the
parsed `data.get("files", [])` is returned; every failure path — non-200,
malformed body (the `json.loads` exception is caught by the `except`), or a
raised request exception — returns the empty list. -/
def get_files (resp : HttpResp) : List RemoteFile × Bool :=
  match resp with
  | .ok files => (files, false)
  | .okNoFiles => ([], false)
  | .okMalformed _ => ([], true)
  | .httpError _ => ([], true)
  | .exc _ => ([], true)

/-- Whether a listing response is a failure (non-2xx or malformed body or
transport exception), i.e. not a 200 with a parseable JSON object. -/
def isFailureResp (resp : HttpResp) : Bool :=
  match resp with
  | .ok _ => false
  | .okNoFiles => false
  | .okMalformed _ => true
  | .httpError _ => true
  | .exc _ => true

/-- The I/O environment one `Ray5Client.upload_file` call runs in:
does `os.path.getsize(local_path)` succeed (the file exists and is
stat-able) and with which exception text otherwise; does `open` succeed
inside the `try` and with which exception text otherwise; the HTTP status
of `requests.post` (`none` meaning the request raised), and the request
exception's text. -/
structure UploadEnv where
  fileExists : Bool
  statMsg : String
  openOk : Bool
  openMsg : String
  httpStatus : Option Nat
  reqMsg : String
  deriving DecidableEq, Repr

/-- Embedding of `Ray5Client.upload_file` (lines 58-79).  `os.path.getsize` at line 60
runs BEFORE the `try` block, so if the local file cannot be stat-ed the
exception escapes to the caller (`Except.error`).  Everything inside the
`try` is caught and converted to a returned message string (`Except.ok`):
200 gives `"Upload successful"`, any other status `"Upload failed: <code>"`,
and a caught exception `"Upload error: <e>"`. -/
def upload_file (env : UploadEnv) : Except String String :=
  if env.fileExists = false then Except.error env.statMsg
  else if env.openOk = false then Except.ok ("Upload error: " ++ env.openMsg)
  else
    match env.httpStatus with
    | some c => if c = 200 then Except.ok "Upload successful"
                else Except.ok ("Upload failed: " ++ toString c)
    | none => Except.ok ("Upload error: " ++ env.reqMsg)

/-- One treeview row: filename, size, and the "new file" fade marker.
`marker = some k` means the row carries a fade tag and a pending
`fade_item(item_id, k)` countdown (the chain `fade_item` schedules every
second); `none` means no marker.  Deleting the row (every refresh and every
disconnect does `tree.delete`) destroys the marker with it, because the
countdown chain checks `tree.exists(item_id)`. -/
structure TreeItem where
  name : String
  size : Nat
  marker : Option Nat
  deriving DecidableEq, Repr

/-- The `Ray5App` state the claims are about: the `running` shutdown flag
(set to False only by `on_closing`), the `connected` flag, the current MAC
string, the last `save_config` pair `(last_mac, last_ip)`, the status
label's text, and the treeview rows.  Other widget state (button text,
entry enabledness, the keepalive dot) is omitted. -/
structure AppState where
  running : Bool
  connected : Bool
  current_mac : String
  savedConfig : Option (String × String)
  statusText : String
  treeItems : List TreeItem
  deriving DecidableEq, Repr

/-- The app state right after `__init__` with no stored config: running,
disconnected, MAC "Unknown", nothing saved, empty tree. -/
def initialState : AppState :=
  { running := true, connected := false, current_mac := "Unknown"
    savedConfig := none, statusText := "Disconnected", treeItems := [] }

/-- Embedding of `Ray5App.disconnect` (lines 228-236): clears the connected flag, resets
the status label, and deletes every tree row.  Nothing here touches the
shutdown flag or signals any background task. -/
def disconnect (s : AppState) : AppState :=
  { s with connected := false, statusText := "Disconnected", treeItems := [] }

/-- Embedding of `Ray5App.update_status_text` (lines 282-286). -/
def update_status_text (ip : String) (s : AppState) : AppState :=
  if s.connected then
    { s with statusText := "Connected: " ++ ip ++ " (" ++ s.current_mac ++ ")" }
  else
    { s with statusText := "Disconnected" }

/-- The test `if new_filenames and name in new_filenames` of
`populate_tree` (line 342): Python truthiness makes `None` and the empty
list fail the first conjunct. -/
def markNew (new_filenames : Option (List String)) (name : String) : Bool :=
  match new_filenames with
  | none => false
  | some l => !l.isEmpty && l.contains name

/-- The row `populate_tree` inserts for one listed file: a fresh 15-tick
marker iff the `if new_filenames and name in new_filenames` test passes. -/
def rowOf (new_filenames : Option (List String)) (f : RemoteFile) : TreeItem :=
  { name := f.name, size := f.size
    marker := if markNew new_filenames f.name then some 15 else none }

/-- Embedding of `Ray5App.populate_tree` (lines 338-344): appends one row per listed
file to the tree; a row whose name is in `new_filenames` gets the
`new_file` tag and a `fade_item(item_id, 15)` countdown — modelled as
`marker = some 15`. -/
def populate_tree (files : List RemoteFile) (new_filenames : Option (List String))
    (s : AppState) : AppState :=
  { s with treeItems := s.treeItems ++ files.map (rowOf new_filenames) }

/-- The synchronous part of `Ray5App.refresh_list` (lines 326-329): a no-op
unless connected and running; otherwise it deletes every tree row BEFORE
the listing request is even issued, then spawns the fetch task. -/
def refreshSync (s : AppState) : AppState :=
  if !s.connected || !s.running then s
  else { s with treeItems := [] }

/-- The background task of `refresh_list` plus its deferred
`populate_tree` callback (lines 331-336), run to completion with the
shutdown flag unchanged: `files = get_files()` (failures already collapsed
to `[]` there), then, if still running, populate the tree.  Note the guard
consults only `self.running`, never `self.connected`. -/
def refreshTaskComplete (resp : HttpResp) (new_filenames : Option (List String))
    (s : AppState) : AppState :=
  if !s.running then s
  else populate_tree (get_files resp).1 new_filenames s

/-- Embedding of `Ray5App.on_connected` (lines 275-280): sets the connected flag,
updates the status label, and triggers `refresh_list` (whose synchronous
part clears the tree and spawns a fetch). -/
def on_connected (ip : String) (_mac : String) (s : AppState) : AppState :=
  refreshSync (update_status_text ip { s with connected := true })

/-- The `connect` background task `task` (lines 255-271), run to completion
on response body `info`, together with its deferred callbacks, with the
shutdown flag constant.  Guards in the source check only `self.running`;
the `connected` flag (which `disconnect` clears) is never consulted, so a
disconnect issued while the handshake is in flight does not stop the
result from being applied.  On a body containing `"FW version"` the MAC is
extracted by `re.search(r"STA \(([0-9A-F:]+)\)", info)` with fallback
`"Unknown"`, `save_config(mac, ip)` persists the pair, and `on_connected`
runs on the main thread; otherwise the status label shows
`"Connection Failed"`. -/
def connectTaskComplete (ip : String) (info : String) (s : AppState) : AppState :=
  if !s.running then s
  else if strContains "FW version" info then
    let mac := (staSearch info).getD "Unknown"
    let s1 := { s with current_mac := mac, savedConfig := some (mac, ip) }
    if s1.running then on_connected ip mac s1 else s1
  else if s.running then { s with statusText := "Connection Failed" } else s

/-- The synchronous part of `Ray5App.connect` (lines 245-253) on a
syntactically valid address: sets the status label and spawns the
handshake task. -/
def connectStart (s : AppState) : AppState :=
  { s with statusText := "Connecting..." }

/-- What one run of the keepalive `check` body (lines 289-303) did:
whether the `[ESP400]` status command was issued, whether the heartbeat
signal (the deferred `flash_dot`) was emitted, and the delay in
milliseconds of the rescheduled next run (`none` when the loop stopped). -/
structure KStep where
  issued : Bool
  heartbeat : Bool
  reschedule : Option Nat
  deriving DecidableEq, Repr

/-- One run of the keepalive `check` body (lines 289-303).  `self.running`
is read three times (entry guard, post-call guard, reschedule guard) and
can only flip from true to false, so the three sampled values are `r1`,
`r2`, `r3`; `connected` is the flag at the `if self.connected:` test, and
`resp` the text `send_command("[ESP400]")` returned.  The heartbeat is
emitted iff the response's lowercasing does not contain `"error"`; the
next run is always scheduled 2000 ms later whenever `self.running` still
holds — the `connected` flag never stops the loop. -/
def keepaliveCheck (r1 r2 r3 connected : Bool) (resp : String) : KStep :=
  if !r1 then { issued := false, heartbeat := false, reschedule := none }
  else if connected then
    if !r2 then { issued := true, heartbeat := false, reschedule := none }
    else
      { issued := true
        heartbeat := !strContains "error" (pyLower resp)
        reschedule := if r3 then some 2000 else none }
  else { issued := false, heartbeat := false, reschedule := if r3 then some 2000 else none }

/-- The per-row state `fade_item` mutates: whether the row currently
carries a background tag (`new_file` or one of the `fade_...` tags). -/
structure ItemState where
  tagged : Bool
  deriving DecidableEq, Repr

/-- One `fade_item(item_id, seconds_left)` call (lines 346-368) on a live
row while running: with `seconds_left ≤ 0` it strips the row's tags and
stops; otherwise it installs the fade tag for this step and schedules
`fade_item(item_id, seconds_left - 1)` after 1000 ms.  The returned option
is the scheduled continuation: `(delayMs, nextSecondsLeft)`. -/
def fade_item (secondsLeft : Nat) (st : ItemState) : ItemState × Option (Nat × Nat) :=
  if secondsLeft = 0 then ({ st with tagged := false }, none)
  else ({ st with tagged := true }, some (1000, secondsLeft - 1))

/-- Run `n` further scheduled ticks of the fade chain from a
(state, pending continuation) pair. -/
def runFade : Nat → ItemState × Option (Nat × Nat) → ItemState × Option (Nat × Nat)
  | 0, p => p
  | _ + 1, (st, none) => (st, none)
  | n + 1, (st, some (_, k)) => runFade n (fade_item k st)

/-- One path handed to `perform_upload`: its basename, whether
`os.path.isdir` holds, and the I/O environment its `upload_file` call
would run in. -/
structure BatchPath where
  basename : String
  isDir : Bool
  env : UploadEnv
  deriving DecidableEq, Repr

/-- The loop of `perform_upload`'s `task` (lines 382-390), with the
shutdown flag constantly true: directories are skipped with `continue`;
otherwise `upload_file` runs, and if its returned string lowercased
contains `"successful"` the basename is appended to `uploaded_names`.  An
exception escaping `upload_file` (see `upload_file`) is uncaught in the
task and kills the thread: `Except.error` aborts the whole remaining
batch.  `acc` carries the names accumulated so far in reverse. -/
def batchGo : List BatchPath → List String → Except String (List String)
  | [], acc => Except.ok acc.reverse
  | p :: rest, acc =>
    if p.isDir then batchGo rest acc
    else
      match upload_file p.env with
      | Except.error e => Except.error e
      | Except.ok res =>
        batchGo rest (if strContains "successful" (pyLower res) then p.basename :: acc else acc)

/-- The whole of `perform_upload`'s `task`, returning the `uploaded_names` list it
gathers, or the exception that killed the thread. -/
def perform_upload_task (paths : List BatchPath) : Except String (List String) :=
  batchGo paths []

/-- Whether the batch loop counts a path as successfully uploaded: not a
directory, and the `upload_file` call returned (rather than raised) a
string whose lowercasing contains `"successful"`. -/
def countsSuccessful (p : BatchPath) : Bool :=
  !p.isDir &&
    match upload_file p.env with
    | Except.ok res => strContains "successful" (pyLower res)
    | Except.error _ => false

/-- The names the batch counts as successfully uploaded, in path order. -/
def uploadedNames (paths : List BatchPath) : List String :=
  (paths.filter countsSuccessful).map (fun p => p.basename)

/-- The string `upload_file` returns when `os.path.getsize` succeeded, so
that no exception escapes (everything further is inside the `try`). -/
def uploadRes (env : UploadEnv) : String :=
  if env.openOk = false then "Upload error: " ++ env.openMsg
  else
    match env.httpStatus with
    | some c => if c = 200 then "Upload successful" else "Upload failed: " ++ toString c
    | none => "Upload error: " ++ env.reqMsg

/-- The whole `perform_upload` flow after its synchronous part, with the
shutdown flag constantly true: run the batch task; if the thread died the
deferred callbacks never run and the state is untouched; otherwise
`update_status_text` runs, then `refresh_list(new_filenames=uploaded)` —
its synchronous tree clearing followed by the fetch task completing with
response `resp`. -/
def uploadScenario (ip : String) (paths : List BatchPath) (resp : HttpResp)
    (s : AppState) : AppState :=
  match perform_upload_task paths with
  | Except.error _ => s
  | Except.ok names =>
    refreshTaskComplete resp (some names) (refreshSync (update_status_text ip s))

/-- An `[ESP420]` response body carrying the firmware marker and an
uppercase-hex STA address, as in the spec's connect scenario. -/
def handshakeBody : String := "FW version 1.2 # STA (AA:BB:CC:DD:EE:FF)"

/-- An `[ESP420]` response body carrying the firmware marker but a
lowercase-hex STA address, which the uppercase-only regex class
`[0-9A-F:]` cannot match. -/
def lowercaseBody : String := "FW version 1.2 # STA (aa:bb:cc:dd:ee:ff)"

/-- A running, connected session whose catalog shows one file and no
marker. -/
def c2state : AppState :=
  { running := true, connected := true, current_mac := "AA:BB:CC:DD:EE:FF"
    savedConfig := none, statusText := "Connected: 192.168.1.101 (AA:BB:CC:DD:EE:FF)"
    treeItems := [{ name := "a.nc", size := 120, marker := none }] }

/-- A running, connected session whose catalog shows one file carrying a
marker with 7 ticks still to go. -/
def c3state : AppState :=
  { running := true, connected := true, current_mac := "AA:BB:CC:DD:EE:FF"
    savedConfig := none, statusText := "Connected: 192.168.1.101 (AA:BB:CC:DD:EE:FF)"
    treeItems := [{ name := "a.nc", size := 120, marker := some 7 }] }

/-- An `UploadEnv` where every I/O step succeeds and the device answers
with the given HTTP status. -/
def okEnv (status : Nat) : UploadEnv :=
  { fileExists := true, statMsg := "", openOk := true, openMsg := ""
    httpStatus := some status, reqMsg := "" }

/-- An `UploadEnv` for a path whose local file does not exist:
`os.path.getsize` raises with the given message. -/
def missingEnv (msg : String) : UploadEnv :=
  { fileExists := false, statMsg := msg, openOk := true, openMsg := ""
    httpStatus := some 200, reqMsg := "" }

/-- A three-item batch whose second path points at a file that no longer
exists on disk. -/
def c7batch : List BatchPath :=
  [{ basename := "a.nc", isDir := false, env := okEnv 200 },
   { basename := "missing.nc", isDir := false, env := missingEnv "FileNotFoundError: missing.nc" },
   { basename := "c.nc", isDir := false, env := okEnv 200 }]

/-- A batch with three uploads that succeed, one that fails with HTTP 500,
and a directory: the spec scenario for independent item failures. -/
def c7goodBatch : List BatchPath :=
  [{ basename := "a.nc", isDir := false, env := okEnv 200 },
   { basename := "subdir", isDir := true, env := okEnv 200 },
   { basename := "b.nc", isDir := false, env := okEnv 200 },
   { basename := "bad.nc", isDir := false, env := okEnv 500 },
   { basename := "d.nc", isDir := false, env := okEnv 200 }]

/-- The device listing after `c7goodBatch` completes. -/
def c7files : List RemoteFile :=
  [{ name := "a.nc", size := 10 }, { name := "b.nc", size := 20 },
   { name := "d.nc", size := 40 }, { name := "old.nc", size := 5 }]

/-- The row the catalog shows for a listed file after a batch whose
successfully uploaded names are `u` — written from the claim: a fresh
15-tick marker exactly on the successfully uploaded names. -/
def rowAfterUpload (u : List String) (f : RemoteFile) : TreeItem :=
  { name := f.name, size := f.size
    marker := if u.contains f.name then some 15 else none }

lemma contains_iff_mem (l : List String) (a : String) : l.contains a = true ↔ a ∈ l := by
  simp

lemma upload_file_of_fileExists (env : UploadEnv) (h : env.fileExists = true) :
    upload_file env = Except.ok (uploadRes env) := by
  cases hop : env.openOk
  · simp [upload_file, uploadRes, h, hop]
  · cases hst : env.httpStatus
    · simp [upload_file, uploadRes, h, hop, hst]
    · simp [upload_file, uploadRes, h, hop, hst]
      split <;> rfl

lemma markNew_some (l : List String) (n : String) : markNew (some l) n = l.contains n := by
  cases l <;> simp [markNew]

lemma uploadedNames_cons (p : BatchPath) (rest : List BatchPath) :
    uploadedNames (p :: rest) =
      if countsSuccessful p then p.basename :: uploadedNames rest else uploadedNames rest := by
  simp only [uploadedNames, List.filter_cons]
  split <;> simp

lemma batchGo_ok (paths : List BatchPath) :
    ∀ acc : List String,
    (∀ p ∈ paths, p.isDir = false → p.env.fileExists = true) →
    batchGo paths acc = Except.ok (acc.reverse ++ uploadedNames paths) := by
  induction paths with
  | nil => intro acc _; simp [batchGo, uploadedNames]
  | cons p rest ih =>
    intro acc h
    have hrest : ∀ q ∈ rest, q.isDir = false → q.env.fileExists = true :=
      fun q hq => h q (List.mem_cons_of_mem _ hq)
    rw [uploadedNames_cons]
    cases hd : p.isDir
    · have hfe : p.env.fileExists = true := h p (List.mem_cons_self p rest) hd
      have hup := upload_file_of_fileExists p.env hfe
      have hcs : countsSuccessful p =
          strContains "successful" (pyLower (uploadRes p.env)) := by
        simp [countsSuccessful, hd, hup]
      cases hb : strContains "successful" (pyLower (uploadRes p.env))
      · simp only [batchGo, hd, hup, hb, hcs, Bool.false_eq_true, if_false]
        exact ih acc hrest
      · simp only [batchGo, hd, hup, hb, hcs, if_true, Bool.false_eq_true, if_false]
        rw [ih (p.basename :: acc) hrest]
        simp
    · have hcs : countsSuccessful p = false := by simp [countsSuccessful, hd]
      simp only [batchGo, hd, hcs, if_true, Bool.false_eq_true, if_false]
      exact ih acc hrest

lemma runFade_lt : ∀ (n k : Nat) (st : ItemState), n < k →
    runFade n (fade_item k st) = ({ tagged := true }, some (1000, k - 1 - n)) := by
  intro n
  induction n with
  | zero =>
    intro k st hk
    have hk0 : k ≠ 0 := by omega
    simp [runFade, fade_item, hk0]
  | succ n ih =>
    intro k st hk
    have hk0 : k ≠ 0 := by omega
    have hstep : fade_item k st = ({ tagged := true }, some (1000, k - 1)) := by
      simp [fade_item, hk0]
    rw [hstep]
    show runFade n (fade_item (k - 1) { tagged := true }) = _
    rw [ih (k - 1) { tagged := true } (by omega)]
    have : k - 1 - 1 - n = k - 1 - (n + 1) := by omega
    rw [this]

lemma runFade_ge : ∀ (n k : Nat) (st : ItemState), k ≤ n →
    runFade n (fade_item k st) = ({ tagged := false }, none) := by
  intro n
  induction n with
  | zero =>
    intro k st h
    have hk : k = 0 := by omega
    subst hk
    simp [runFade, fade_item]
  | succ n ih =>
    intro k st h
    cases k with
    | zero =>
      have hstep : fade_item 0 st = ({ tagged := false }, none) := by simp [fade_item]
      rw [hstep]
      simp [runFade]
    | succ m =>
      have hstep : fade_item (m + 1) st = ({ tagged := true }, some (1000, m)) := by
        simp [fade_item]
      rw [hstep]
      show runFade n (fade_item m { tagged := true }) = _
      exact ih m { tagged := true } (by omega)

/-- Claim C1, as stated, is FALSE on the code: starting from the initial
state, invoke `connect` (status becomes Connecting), then `disconnect`
while the handshake is in flight; when the handshake then resolves with a
firmware-marked body, its result is NOT discarded — the handshake task
only guards on the shutdown flag `self.running`, never on the disconnect,
so the session ends Connected, the identity is captured, and the
{mac, ip} pair is persisted, contradicting "the connection state remains
Disconnected, no identity is captured, and no state change ... occurs". -/
theorem c1_counterexample :
    (disconnect (connectStart initialState)).connected = false ∧
    (connectTaskComplete "192.168.1.101" handshakeBody
        (disconnect (connectStart initialState))).connected = true ∧
    (connectTaskComplete "192.168.1.101" handshakeBody
        (disconnect (connectStart initialState))).current_mac = "AA:BB:CC:DD:EE:FF" ∧
    (connectTaskComplete "192.168.1.101" handshakeBody
        (disconnect (connectStart initialState))).savedConfig =
      some ("AA:BB:CC:DD:EE:FF", "192.168.1.101") := by
  decide

/-- Claim C1 amended: an in-flight handshake's result is discarded only
when the process shutdown flag (`self.running`) has been cleared, never
because of a `disconnect`: with `running = false` the completing task
leaves the state untouched, while after connect-then-disconnect with the
process still running, a successful handshake is applied and the session
becomes Connected again. -/
theorem c1_amended :
    (∀ (ip info : String) (s : AppState), s.running = false →
      connectTaskComplete ip info s = s) ∧
    (connectTaskComplete "192.168.1.101" handshakeBody
        (disconnect (connectStart initialState))).connected = true := by
  constructor
  · intro ip info s h
    simp [connectTaskComplete, h]
  · decide

/-- Witness for `c1_amended`: a completing handshake is discarded in a
concrete state whose shutdown flag is cleared. -/
theorem c1_amended_witness :
    connectTaskComplete "192.168.1.101" handshakeBody
      { running := false, connected := false, current_mac := "Unknown",
        savedConfig := none, statusText := "Disconnected", treeItems := [] } =
      { running := false, connected := false, current_mac := "Unknown",
        savedConfig := none, statusText := "Disconnected", treeItems := [] } :=
  c1_amended.1 "192.168.1.101" handshakeBody _ rfl

/-- Claim C2, as stated, is FALSE on the code: `refresh_list` deletes
every tree row synchronously BEFORE the listing request is issued, and a
failing `get_files` returns `[]`, so a transient fetch failure does clear
a good catalog (the previous entry `a.nc` is gone, the tree ends empty);
the failure is only logged. -/
theorem c2_counterexample :
    c2state.treeItems = [{ name := "a.nc", size := 120, marker := none }] ∧
    (refreshTaskComplete (HttpResp.httpError 500) none (refreshSync c2state)).treeItems = [] ∧
    (get_files (HttpResp.httpError 500)).2 = true := by
  decide

/-- Claim C2 amended: on a refresh whose listing query fails (non-2xx,
malformed body, or transport exception), the catalog does NOT keep its
previous contents — `refresh_list` has already cleared it and the failed
`get_files` contributes `[]`, so the catalog ends empty; the error is
reported only to the log, with no error event the caller can observe. -/
theorem c2_amended :
    ∀ (s : AppState) (resp : HttpResp), s.running = true → s.connected = true →
    isFailureResp resp = true →
    (refreshTaskComplete resp none (refreshSync s)).treeItems = [] ∧
    (get_files resp).2 = true := by
  intro s resp h1 h2 h3
  cases resp <;>
    simp_all [refreshTaskComplete, refreshSync, populate_tree, get_files, isFailureResp]

/-- Witness for `c2_amended` at a concrete connected state and a concrete
HTTP 500 listing failure. -/
theorem c2_amended_witness :
    (refreshTaskComplete (HttpResp.httpError 500) none (refreshSync c2state)).treeItems = [] ∧
    (get_files (HttpResp.httpError 500)).2 = true :=
  c2_amended c2state (HttpResp.httpError 500) rfl rfl rfl

/-- Claim C3, as stated, is FALSE on the code: a marker lives on a tree
row (a tag plus a countdown chain keyed by the row's item id), and every
refresh deletes all rows, so a marker with 7 ticks left on `a.nc` does
NOT survive a successful refresh whose new listing still contains `a.nc`
— the freshly inserted row carries no marker. -/
theorem c3_counterexample :
    c3state.treeItems = [{ name := "a.nc", size := 120, marker := some 7 }] ∧
    (refreshTaskComplete (HttpResp.ok [{ name := "a.nc", size := 120 }]) none
        (refreshSync c3state)).treeItems =
      [{ name := "a.nc", size := 120, marker := none }] := by
  decide

/-- Claim C3 amended: a successful refresh drops EVERY pre-existing
marker, whether or not its file name appears in the new listing (the rows
are deleted together with their markers and countdown chains); after the
refresh the rows are exactly the new listing in order, and fresh 15-tick
markers sit exactly on the names passed as `new_filenames` (none at all
on a plain refresh). -/
theorem c3_amended :
    ∀ (s : AppState) (files : List RemoteFile) (names : Option (List String)),
    s.running = true → s.connected = true →
    (refreshTaskComplete (HttpResp.ok files) names (refreshSync s)).treeItems =
      files.map (rowOf names) := by
  intro s files names h1 h2
  simp [refreshTaskComplete, refreshSync, populate_tree, get_files, h1, h2]

/-- Witness for `c3_amended`: refreshing the marked state with a two-file
listing and `new_filenames = ["b.nc"]` yields exactly the new rows, with
the old 7-tick marker gone and a fresh 15-tick marker on `b.nc`. -/
theorem c3_amended_witness :
    (refreshTaskComplete (HttpResp.ok [{ name := "a.nc", size := 120 }, { name := "b.nc", size := 7 }])
        (some ["b.nc"]) (refreshSync c3state)).treeItems =
      [{ name := "a.nc", size := 120, marker := none },
       { name := "b.nc", size := 7, marker := some 15 }] := by
  rw [c3_amended c3state [{ name := "a.nc", size := 120 }, { name := "b.nc", size := 7 }]
    (some ["b.nc"]) rfl rfl]
  decide

/-- Claim C4, as stated, is FALSE on the code: `get_files` never delivers
a `TransportError` — a non-200 response and a malformed body both return
the plain empty list, the very value a successful empty listing returns,
so the caller cannot distinguish "empty device" from "query failed". -/
theorem c4_counterexample :
    (get_files (HttpResp.httpError 500)).1 = [] ∧
    (get_files (HttpResp.okMalformed "not json")).1 = [] ∧
    (get_files (HttpResp.ok [])).1 = [] ∧
    (get_files (HttpResp.httpError 500)).1 = (get_files (HttpResp.ok [])).1 := by
  decide

/-- Claim C4 amended: on a non-2xx response, a malformed body, or a raised
request exception, `get_files` logs an error and substitutes the empty
sequence; the value delivered to the caller is `[]`, indistinguishable
from a successful empty listing. -/
theorem c4_amended :
    ∀ resp : HttpResp, isFailureResp resp = true → get_files resp = ([], true) := by
  intro resp h
  cases resp <;> simp_all [get_files, isFailureResp]

/-- Witness for `c4_amended` at a concrete HTTP 404 failure. -/
theorem c4_amended_witness : get_files (HttpResp.httpError 404) = ([], true) :=
  c4_amended (HttpResp.httpError 404) rfl

/-- Claim C5: the code contradicts it on a localPath that does not exist
or cannot be stat-ed — `os.path.getsize(local_path)` at line 60 runs
BEFORE the `try` block, so its exception escapes `upload_file` to the
caller instead of becoming a `Failure{message}`; every failure inside the
`try` is, as claimed, converted to a returned message, and 200 alone
yields the success string. -/
theorem c5_upload_exception_escapes :
    upload_file (missingEnv "FileNotFoundError: missing.nc") =
      Except.error "FileNotFoundError: missing.nc" ∧
    upload_file (okEnv 200) = Except.ok "Upload successful" ∧
    upload_file (okEnv 500) = Except.ok "Upload failed: 500" ∧
    upload_file { okEnv 200 with httpStatus := none, reqMsg := "timeout" } =
      Except.ok "Upload error: timeout" :=
  ⟨rfl, rfl, rfl, rfl⟩

/-- Claim C6: in every run of the keepalive body, the `[ESP400]` status
command is issued only while still Connected (and not shut down); when
the body reaches the response check, the heartbeat signal is emitted
exactly when the lowercased response does not contain the `"error"`
marker; the next run is always scheduled exactly 2000 ms later; and the
loop fails to reschedule only when some sample of `self.running` was
false, i.e. only on process shutdown — which satisfies "terminates only
when the session transitions away from Connected or the process requests
shutdown". -/
theorem c6_keepalive_check (r1 r2 r3 connected : Bool) (resp : String) :
    ((keepaliveCheck r1 r2 r3 connected resp).issued = true → connected = true ∧ r1 = true) ∧
    (r1 = true → r2 = true → connected = true →
      ((keepaliveCheck r1 r2 r3 connected resp).heartbeat = true ↔
        strContains "error" (pyLower resp) = false)) ∧
    ((keepaliveCheck r1 r2 r3 connected resp).reschedule = none →
      r1 = false ∨ r2 = false ∨ r3 = false) ∧
    (∀ d, (keepaliveCheck r1 r2 r3 connected resp).reschedule = some d → d = 2000) := by
  cases r1 <;> cases r2 <;> cases r3 <;> cases connected <;> simp [keepaliveCheck]

/-- Witness for `c6_keepalive_check`: a connected, running session whose
status response carries no error marker emits the heartbeat. -/
theorem c6_keepalive_check_witness :
    (keepaliveCheck true true true true "ok").heartbeat = true :=
  ((c6_keepalive_check true true true true "ok").2.1 rfl rfl rfl).mpr (by decide)

/-- Claim C7, as stated, is FALSE on the code: a non-directory path whose
local file no longer exists makes `upload_file` raise (the `getsize` call
sits before the `try`), the batch task has no handler, and the thread
dies — `c.nc`, the item after the failing one, is never attempted, no
per-item outcome is produced, and the final catalog refresh with its
markers never happens, so a failing item DOES abort the remaining items. -/
theorem c7_counterexample :
    perform_upload_task c7batch = Except.error "FileNotFoundError: missing.nc" ∧
    uploadScenario "192.168.1.101" c7batch
        (HttpResp.ok [{ name := "a.nc", size := 10 }, { name := "c.nc", size := 30 }])
        c2state = c2state :=
  ⟨rfl, rfl⟩

/-- Claim C7 amended: provided every non-directory path in the batch
still refers to a stat-able local file (so no exception escapes
`upload_file`), the batch behaves as claimed: directories are silently
skipped, the other paths are uploaded sequentially, an item failure never
aborts the remaining items (the task returns the accumulated names), and
the triggered refresh gives fresh 15-tick markers to exactly the
successfully uploaded filenames (provided they appear in the refreshed
listing). -/
theorem c7_amended :
    ∀ (paths : List BatchPath) (files : List RemoteFile) (s : AppState) (ip : String),
    (∀ p ∈ paths, p.isDir = false → p.env.fileExists = true) →
    s.running = true → s.connected = true →
    (∀ n ∈ uploadedNames paths, n ∈ files.map RemoteFile.name) →
    perform_upload_task paths = Except.ok (uploadedNames paths) ∧
    (uploadScenario ip paths (HttpResp.ok files) s).treeItems =
      files.map (rowAfterUpload (uploadedNames paths)) ∧
    (∀ n : String, (∃ it ∈ (uploadScenario ip paths (HttpResp.ok files) s).treeItems,
        it.name = n ∧ it.marker = some 15) ↔ n ∈ uploadedNames paths) := by
  intro paths files s ip hfe hr hc hsub
  have htask : perform_upload_task paths = Except.ok (uploadedNames paths) := by
    have h := batchGo_ok paths [] hfe
    simpa [perform_upload_task] using h
  have htree : (uploadScenario ip paths (HttpResp.ok files) s).treeItems =
      files.map (rowAfterUpload (uploadedNames paths)) := by
    simp [uploadScenario, htask, refreshTaskComplete, refreshSync, update_status_text,
      populate_tree, get_files, hr, hc, rowOf, rowAfterUpload, markNew_some]
  refine ⟨htask, htree, ?_⟩
  intro n
  constructor
  · rintro ⟨it, hit, hname, hmark⟩
    rw [htree] at hit
    rcases List.mem_map.mp hit with ⟨f, hf, heq⟩
    rw [← heq] at hname hmark
    have hfn : f.name = n := by simpa [rowAfterUpload] using hname
    have hmem : f.name ∈ uploadedNames paths := by
      by_cases hcont : (uploadedNames paths).contains f.name = true
      · exact (contains_iff_mem _ _).mp hcont
      · rw [rowAfterUpload] at hmark
        simp only at hmark
        rw [if_neg hcont] at hmark
        exact absurd hmark (by simp)
    rw [← hfn]
    exact hmem
  · intro hn
    have hcontains : (uploadedNames paths).contains n = true := (contains_iff_mem _ _).mpr hn
    rcases List.mem_map.mp (hsub n hn) with ⟨f, hf, hfn⟩
    refine ⟨rowAfterUpload (uploadedNames paths) f, ?_, ?_, ?_⟩
    · rw [htree]
      exact List.mem_map.mpr ⟨f, hf, rfl⟩
    · simpa [rowAfterUpload] using hfn
    · have hc2 : (uploadedNames paths).contains f.name = true := by
        rw [hfn]; exact hcontains
      show (rowAfterUpload (uploadedNames paths) f).marker = some 15
      rw [rowAfterUpload]
      simp only
      rw [if_pos hc2]

/-- Witness for `c7_amended`: the spec's batch scenario — three uploads
succeed, one fails with HTTP 500, one path is a directory — yields the
three successes as the accumulated names, and the refreshed catalog marks
exactly those three. -/
theorem c7_amended_witness :
    perform_upload_task c7goodBatch = Except.ok ["a.nc", "b.nc", "d.nc"] ∧
    (uploadScenario "192.168.1.101" c7goodBatch (HttpResp.ok c7files) c2state).treeItems =
      c7files.map (rowAfterUpload ["a.nc", "b.nc", "d.nc"]) := by
  have h := c7_amended c7goodBatch c7files c2state "192.168.1.101" (by decide) rfl rfl (by decide)
  have hu : uploadedNames c7goodBatch = ["a.nc", "b.nc", "d.nc"] := by decide
  rw [hu] at h
  exact ⟨h.1, h.2.1⟩

/-- Claim C8: a ChangeMarker is created by `fade_item(item_id, 15)` with a
fixed 15-tick countdown; each scheduled tick fires 1000 ms after the
previous one and decrements the countdown; the marker (the row's fade
tag) is still present after any number of ticks below 15 and is removed
at the 15th tick exactly: after `n` ticks the row is tagged iff `n < 15`,
and while alive the pending tick is always scheduled 1000 ms out. -/
theorem c8_marker_countdown (n : Nat) :
    runFade n (fade_item 15 { tagged := true }) =
      ({ tagged := decide (n < 15) }, if n < 15 then some (1000, 14 - n) else none) := by
  by_cases h : n < 15
  · rw [runFade_lt n 15 { tagged := true } h]
    simp [h]
  · rw [runFade_ge n 15 { tagged := true } (by omega)]
    simp [h]

/-- Claim C9: whenever the handshake body contains the firmware marker
`"FW version"` and the `STA (<uppercase hex and colons>)` pattern
captures `mac`, the completing connect task makes the session Connected
with identity `mac` and persists `(mac, ip)` via `save_config`; in
particular the spec's scenario body yields `AA:BB:CC:DD:EE:FF` for
`192.168.1.101`; and when the firmware marker is absent the attempt fails
(status "Connection Failed", nothing persisted) even though the HTTP call
returned a body. -/
theorem c9_connect_success :
    (∀ (ip info mac : String) (s : AppState), s.running = true →
      strContains "FW version" info = true → staSearch info = some mac →
      (connectTaskComplete ip info s).connected = true ∧
      (connectTaskComplete ip info s).current_mac = mac ∧
      (connectTaskComplete ip info s).savedConfig = some (mac, ip)) ∧
    ((connectTaskComplete "192.168.1.101" handshakeBody (connectStart initialState)).connected = true ∧
      (connectTaskComplete "192.168.1.101" handshakeBody
        (connectStart initialState)).current_mac = "AA:BB:CC:DD:EE:FF" ∧
      (connectTaskComplete "192.168.1.101" handshakeBody (connectStart initialState)).savedConfig =
        some ("AA:BB:CC:DD:EE:FF", "192.168.1.101")) ∧
    (∀ (ip info : String) (s : AppState), s.running = true → s.connected = false →
      strContains "FW version" info = false →
      (connectTaskComplete ip info s).connected = false ∧
      (connectTaskComplete ip info s).statusText = "Connection Failed" ∧
      (connectTaskComplete ip info s).savedConfig = s.savedConfig) := by
  refine ⟨?_, by decide, ?_⟩
  · intro ip info mac s hr hfw hsta
    simp [connectTaskComplete, hr, hfw, hsta, on_connected, update_status_text, refreshSync]
  · intro ip info s hr hc hfw
    simp [connectTaskComplete, hr, hfw, hc]

/-- Witness for `c9_connect_success`: the scenario body applied from the
initial state over a different address still yields the extracted MAC. -/
theorem c9_connect_success_witness :
    (connectTaskComplete "10.0.0.5" handshakeBody initialState).current_mac =
      "AA:BB:CC:DD:EE:FF" :=
  (c9_connect_success.1 "10.0.0.5" handshakeBody "AA:BB:CC:DD:EE:FF" initialState rfl
    (by decide) (by decide)).2.1

/-- Claim C10: when the handshake body contains the firmware marker but
nothing matches `STA (<uppercase hex and colons>)` — e.g. a lowercase
hardware address — the connect still succeeds: the session becomes
Connected with identity the literal `"Unknown"`, and `("Unknown", ip)` is
persisted to config; failing to extract an identity never aborts the
connection. -/
theorem c10_unknown_identity :
    (∀ (ip info : String) (s : AppState), s.running = true →
      strContains "FW version" info = true → staSearch info = none →
      (connectTaskComplete ip info s).connected = true ∧
      (connectTaskComplete ip info s).current_mac = "Unknown" ∧
      (connectTaskComplete ip info s).savedConfig = some ("Unknown", ip)) ∧
    (staSearch lowercaseBody = none ∧
      (connectTaskComplete "192.168.1.101" lowercaseBody (connectStart initialState)).connected = true ∧
      (connectTaskComplete "192.168.1.101" lowercaseBody (connectStart initialState)).savedConfig =
        some ("Unknown", "192.168.1.101")) := by
  refine ⟨?_, by decide⟩
  intro ip info s hr hfw hsta
  simp [connectTaskComplete, hr, hfw, hsta, on_connected, update_status_text, refreshSync]

/-- Witness for `c10_unknown_identity`: the lowercase-address body applied
from the initial state yields identity `"Unknown"`. -/
theorem c10_unknown_identity_witness :
    (connectTaskComplete "10.0.0.5" lowercaseBody initialState).current_mac = "Unknown" :=
  (c10_unknown_identity.1 "10.0.0.5" lowercaseBody initialState rfl
    (by decide) (by decide)).2.1

end Ray5
